import Mathlib

/-!
Verification of the image-platform repository's generation and publish
orchestration, as a shallow embedding of the Go source
(`cmd/server/main.go`, the `generator`, `publisher` and `config` packages).
Remote I/O (HTTP responses, file writes) is passed in explicitly as
environment parameters; everything else mirrors the source code.
-/

namespace ImagePlatform

/-! ## Time formatting (Go `time.Format` layouts used by the code) -/

/-- A wall-clock instant, the fields the code's format strings consume. -/
structure GoTime where
  year : Nat
  month : Nat
  day : Nat
  hour : Nat
  minute : Nat
  second : Nat
deriving DecidableEq

/-- Zero-padded two-digit rendering, as Go layout components `01`, `02`, `15`, `04`, `05` produce. -/
def pad2 (n : Nat) : String :=
  if n < 10 then "0" ++ toString n else toString n

/-- Four-digit year rendering (Go layout `2006`). -/
def pad4 (n : Nat) : String :=
  if n < 10 then "000" ++ toString n
  else if n < 100 then "00" ++ toString n
  else if n < 1000 then "0" ++ toString n
  else toString n

/-- Go `now.Format("2006-01-02")`. -/
def formatDate (t : GoTime) : String :=
  pad4 t.year ++ "-" ++ pad2 t.month ++ "-" ++ pad2 t.day

/-- Go `now.Format("150405")`. -/
def formatHMS (t : GoTime) : String :=
  pad2 t.hour ++ pad2 t.minute ++ pad2 t.second

/-- `filepath.Join` on clean path components, as the code uses it. -/
def filepathJoin (parts : List String) : String :=
  String.intercalate "/" parts

/-! ## Configuration (`PlatformConfig`, `loadConfig`, `getEnabledPlatforms`) -/

/-- One `platforms:` entry of `config.yaml` (struct `PlatformConfig` in `main.go`). -/
structure PlatformConfig where
  name : String
  envKey : String
  apiKey : String
  url : String
  model : String
  enabled : Bool
  description : String
deriving DecidableEq

/-- The per-platform step of `loadConfig`: if the environment variable named by
`envKey` resolves non-empty, overwrite the API key and force-enable the
platform; otherwise the yaml values are kept unchanged. -/
def resolvePlatform (env : String → String) (p : PlatformConfig) : PlatformConfig :=
  if env p.envKey ≠ "" then { p with apiKey := env p.envKey, enabled := true } else p

/-- The platform map after `loadConfig` (the registry), as an association list. -/
def loadConfigPlatforms (env : String → String)
    (ps : List (String × PlatformConfig)) : List (String × PlatformConfig) :=
  ps.map (fun kp => (kp.1, resolvePlatform env kp.2))

/-- `getEnabledPlatforms`: keeps a platform iff its enabled flag is set AND its
API key is non-empty. -/
def getEnabledPlatforms (ps : List (String × PlatformConfig)) :
    List (String × PlatformConfig) :=
  ps.filter (fun kp => kp.2.enabled && decide (kp.2.apiKey ≠ ""))

/-- Map lookup `cfg.Platforms[platform]`. -/
def lookupPlatform (ps : List (String × PlatformConfig)) (key : String) :
    Option PlatformConfig :=
  (ps.find? (fun kp => kp.1 = key)).map (fun kp => kp.2)

/-! ## Artifact store (`downloadAndSave`) -/

/-- The `GenerateResult` struct returned by the server's generation functions. -/
structure GenerateResult where
  platform : String
  model : String
  filename : String
  filePath : String
  success : Bool
deriving DecidableEq

/-- Result of the `http.Get(imageURL)` + `io.ReadAll` pair: a transport error,
or the fully buffered body bytes (possibly empty). -/
inductive FetchResult where
  | err : FetchResult
  | ok : List Nat → FetchResult
deriving DecidableEq

/-- What `downloadAndSave` did: the file write it performed (path and full
content), if any, and the value it returned. -/
structure SaveEffect where
  written : Option (String × List Nat)
  outcome : Option GenerateResult
deriving DecidableEq

/-- The path `downloadAndSave` computes:
`filepath.Join(outputDir, now.Format("2006-01-02"), platform)` joined with
`now.Format("150405") + ".png"`. -/
def artifactPath (outputDir platform : String) (t : GoTime) : String :=
  filepathJoin [outputDir, formatDate t, platform, formatHMS t ++ ".png"]

/-- `downloadAndSave(p, platform, imageURL)`: on a transport error it returns
nil having written nothing; otherwise it writes the whole buffered body (even
when empty) to the computed path and returns a success result. -/
def downloadAndSave (p : PlatformConfig) (platform outputDir : String)
    (t : GoTime) (fetch : FetchResult) : SaveEffect :=
  let path := artifactPath outputDir platform t
  match fetch with
  | .err => { written := none, outcome := none }
  | .ok data =>
      { written := some (path, data)
        outcome := some
          { platform := p.name
            model := p.model
            filename := formatHMS t ++ ".png"
            filePath := path
            success := true } }

/-! ## Generation orchestrator (`generateImage` and its dispatch) -/

/-- The directory label each adapter passes to `downloadAndSave`:
`generateAliyunImage` passes `"aliyun"`, `generateModelScopeImage` passes
`"modelscope"`, and `generateSyncImage` — used for every other platform key —
passes the literal `"siliconflow"`. -/
def dispatchLabel (key : String) : String :=
  if key = "aliyun" then "aliyun"
  else if key = "modelscope" then "modelscope"
  else "siliconflow"

/-- `generateImage(platform, prompt, size)`. Lookup and enabled-flag guard are
from the source; the remote adapter chain (sync call or async submit+poll) is
abstracted as `adapter`, returning the remote image URL it would hand to
`downloadAndSave`, or `none` on any adapter failure (in which case the Go
function returns nil). -/
def generateImage (ps : List (String × PlatformConfig)) (key : String)
    (adapter : String → PlatformConfig → Option String)
    (outputDir : String) (t : GoTime) (fetch : FetchResult) :
    Option GenerateResult :=
  match lookupPlatform ps key with
  | none => none
  | some p =>
      if p.enabled then
        match adapter key p with
        | none => none
        | some _ => (downloadAndSave p (dispatchLabel key) outputDir t fetch).outcome
      else none

/-- The HTTP response `handleGenerate` produces from the generation result. -/
inductive GenResponse where
  | errorResp : Nat → String → GenResponse
  | okResp : (filePath platform model : String) → GenResponse
deriving DecidableEq

/-- The tail of `handleGenerate`: a nil result becomes a generic 500 error,
otherwise the result's fields are echoed in a success payload. -/
def handleGenerate (result : Option GenerateResult) : GenResponse :=
  match result with
  | none => .errorResp 500 "生成失败，请检查平台是否正确或API是否配置"
  | some r => .okResp r.filePath r.platform r.model

/-! ## Synchronous adapter size tokens -/

/-- The size token `generateSyncImage` puts in the request body: `W/2xH` when
the configured height exceeds the width (Go integer division truncates toward
zero, as `Int.div` does), else `WxH`. -/
def syncImageSize (width height : Int) : String :=
  if height > width then toString (Int.tdiv width 2) ++ "x" ++ toString height
  else toString width ++ "x" ++ toString height

/-- The size token `generateViaHTTP` (generator package) puts in the request
body: always the raw `WxH`. -/
def generateViaHTTPSize (width height : Int) : String :=
  toString width ++ "x" ++ toString height

/-! ## Asynchronous task pollers
(`generateAliyunImage` / `generateModelScopeImage` poll loops) -/

/-- Canonical outcome of a poll loop. -/
inductive PollOutcome where
  | success : String → PollOutcome
  | failed : PollOutcome
  | timedOut : PollOutcome
deriving DecidableEq

/-- The parsed body of one Aliyun status poll (`output.task_status`,
`output.results[].url`). A JSON parse failure leaves Go's zero value, i.e.
status `""` with no results, so every poll response is representable. -/
structure AliyunStatus where
  taskStatus : String
  results : List String
deriving DecidableEq

/-- The parsed body of one ModelScope status poll (`task_status`,
`output_images`). -/
structure ModelScopeStatus where
  taskStatus : String
  outputImages : List String
deriving DecidableEq

/-- One iteration of the Aliyun poll loop body. `none` for the whole attempt
models a transport error (`client.Do` failing), which the loop `continue`s
past. Returns `some` outcome when the loop exits on this attempt, `none` when
it keeps polling. -/
def aliyunStep (attempt : Option AliyunStatus) : Option PollOutcome :=
  match attempt with
  | none => none
  | some st =>
      if h : st.taskStatus = "SUCCEEDED" ∧ st.results ≠ [] then
        some (.success (st.results.head h.2))
      else if st.taskStatus = "FAILED" then some .failed
      else none

/-- One iteration of the ModelScope poll loop body; its success vocabulary is
`"SUCCEED"` and its result field is `output_images`. -/
def modelScopeStep (attempt : Option ModelScopeStatus) : Option PollOutcome :=
  match attempt with
  | none => none
  | some st =>
      if h : st.taskStatus = "SUCCEED" ∧ st.outputImages ≠ [] then
        some (.success (st.outputImages.head h.2))
      else if st.taskStatus = "FAILED" then some .failed
      else none

/-- The bounded poll loop `for i := 0; i < maxRetries; i++`: `env i` is the
response to the i-th poll, `fuel` the remaining attempts. Returns the outcome
together with the number of polls performed. -/
def pollLoop {α : Type} (step : α → Option PollOutcome) (env : Nat → α) :
    Nat → Nat → PollOutcome × Nat
  | i, 0 => (.timedOut, i)
  | i, fuel + 1 =>
      match step (env i) with
      | some out => (out, i + 1)
      | none => pollLoop step env (i + 1) fuel

/-- The Aliyun poll loop: cap `maxRetries = 30`. -/
def aliyunPoll (env : Nat → Option AliyunStatus) : PollOutcome × Nat :=
  pollLoop aliyunStep env 0 30

/-- The ModelScope poll loop: cap `maxRetries = 60`. -/
def modelScopePoll (env : Nat → Option ModelScopeStatus) : PollOutcome × Nat :=
  pollLoop modelScopeStep env 0 60

/-! ## Generator package (`GenerateSingle`, `GenerateAll`, `generateViaHTTP`) -/

/-- The generator package's per-platform client (`PlatformGenerator`). -/
structure PlatformGenerator where
  name : String
  apiKey : String
  model : String
  baseURL : String
deriving DecidableEq

/-- The generator package's `GenerateResult`. -/
structure GenOutcome where
  platform : String
  filePath : String
  imageURL : String
  success : Bool
  error : String
deriving DecidableEq

/-- The per-generator body shared by `GenerateAll`'s goroutine and
`GenerateSingle`'s tail: call `Generate` (abstracted as `genRes`, an error or
a remote URL), then `downloadImage` (abstracted as `download`, keyed by URL).
`filePath` is the `outputDir`-joined `{key}_{unix}.png` name. -/
def generatorAttempt (key : String) (g : PlatformGenerator)
    (genRes : PlatformGenerator → Except String String)
    (download : String → Except String Unit)
    (outputDir : String) (unix : Nat) : GenOutcome :=
  match genRes g with
  | .error e =>
      { platform := g.name, filePath := "", imageURL := "", success := false, error := e }
  | .ok url =>
      match download url with
      | .error e =>
          { platform := g.name, filePath := "", imageURL := "", success := false, error := e }
      | .ok _ =>
          { platform := g.name
            filePath := filepathJoin [outputDir, key ++ "_" ++ toString unix ++ ".png"]
            imageURL := url
            success := true
            error := "" }

/-- `GenerateAll`: one outcome per registered generator, collected over all of
them (each goroutine sends exactly one result; order abstracted as registry
order). -/
def GenerateAll (gens : List (String × PlatformGenerator))
    (genRes : PlatformGenerator → Except String String)
    (download : String → Except String Unit)
    (outputDir : String) (unix : Nat) : List GenOutcome :=
  gens.map (fun kg => generatorAttempt kg.1 kg.2 genRes download outputDir unix)

/-- `GenerateSingle`: a missing key yields an explicit failure outcome with
error `"平台未启用"`; otherwise the shared attempt body runs. -/
def GenerateSingle (gens : List (String × PlatformGenerator)) (key : String)
    (genRes : PlatformGenerator → Except String String)
    (download : String → Except String Unit)
    (outputDir : String) (unix : Nat) : GenOutcome :=
  match (gens.find? (fun kg => kg.1 = key)).map (fun kg => kg.2) with
  | none =>
      { platform := key, filePath := "", imageURL := "", success := false
        error := "平台未启用" }
  | some g => generatorAttempt key g genRes download outputDir unix

/-! ## Publisher (`Manager`, `Publish`, `handlePublish`) -/

/-- A registered publish platform: its display name, its type key, and its
`Publish` behaviour (destination URL or error), abstracted over the remote
call. -/
structure PubPlatform where
  name : String
  ptype : String
  publishFn : String → String → String → Except String String

/-- `Manager.platforms` as an association list keyed by platform type. -/
def managerLookup (m : List PubPlatform) (t : String) : Option PubPlatform :=
  m.find? (fun p => p.ptype = t)

/-- `Manager.Publish`: unknown platform type is an error; otherwise the
platform's own `Publish` runs. -/
def managerPublish (m : List PubPlatform) (t imgPath title content : String) :
    Except String String :=
  match managerLookup m t with
  | none => .error ("未支持的平台: " ++ t)
  | some p => p.publishFn imgPath title content

/-- How `handlePublish` renders one platform's publish result into the
results map entry. -/
def publishEntry (m : List PubPlatform) (t imgPath title content : String) : String :=
  match managerPublish m t imgPath title content with
  | .error e => "失败: " ++ e
  | .ok url => url

/-- The key expansion in `handlePublish`: an empty requested list expands to
all registered platforms (`pubManager.List()`). -/
def expandKeys (m : List PubPlatform) (keys : List String) : List String :=
  if keys.isEmpty then m.map (fun p => p.ptype) else keys

/-- The dispatch loop of `handlePublish`: one rendered entry per requested
key, each computed from that key's own `Manager.Publish` call. -/
def dispatchMany (m : List PubPlatform) (keys : List String)
    (imgPath title content : String) : List (String × String) :=
  (expandKeys m keys).map (fun k => (k, publishEntry m k imgPath title content))

/-- The image record fields `handlePublish` consumes. -/
structure ImageRow where
  id : Nat
  path : String
  status : String
deriving DecidableEq

/-- The HTTP response of `handlePublish`. -/
inductive PublishResponse where
  | notFound : String → PublishResponse
  | badRequest : String → PublishResponse
  | ok : List (String × String) → PublishResponse
deriving DecidableEq

/-- `handlePublish`: looks up the record (`record` is the DB lookup result),
rejects a missing record with 404 and a non-approved record with 400 before
any adapter runs, else dispatches. The second component lists the platform
keys for which `pubManager.Publish` was invoked. -/
def handlePublish (record : Option ImageRow) (m : List PubPlatform)
    (keys : List String) (title content : String) :
    PublishResponse × List String :=
  match record with
  | none => (.notFound "图片不存在", [])
  | some r =>
      if r.status ≠ "approved" then (.badRequest "只能发布审核通过的图片", [])
      else (.ok (dispatchMany m keys r.path title content), expandKeys m keys)

/-! ## Concrete fixtures used to evaluate the definitions -/

/-- The spec's example instant, 2026-02-20T21:56:54. -/
def t0 : GoTime :=
  { year := 2026, month := 2, day := 20, hour := 21, minute := 56, second := 54 }

/-- The `openai` platform entry from the README's sample configuration,
with a resolved credential. -/
def openaiCfg : PlatformConfig :=
  { name := "OpenAI DALL-E 3", envKey := "OPENAI_API_KEY", apiKey := "sk-1"
    url := "https://api.openai.com/v1", model := "dall-e-3", enabled := true
    description := "" }

/-- A registry holding only the enabled `openai` platform. -/
def ps0 : List (String × PlatformConfig) := [("openai", openaiCfg)]

/-- An adapter environment whose remote call always yields an image URL. -/
def adapter0 : String → PlatformConfig → Option String := fun _ _ => some "http://img"

/-- The `siliconflow` yaml entry with `enabled: true` but no API key. -/
def siliconflowNoKey : PlatformConfig :=
  { name := "硅基流动", envKey := "SILICONFLOW_API_KEY", apiKey := ""
    url := "https://api.siliconflow.cn/v1", model := "Kwai-Kolors/Kolors"
    enabled := true, description := "" }

/-- A process environment with no credential variables set. -/
def emptyEnv : String → String := fun _ => ""

/-- Aliyun poll responses PENDING, PENDING, then SUCCEEDED with a URL. -/
def envPPS : Nat → Option AliyunStatus := fun i =>
  if i = 0 then some { taskStatus := "PENDING", results := [] }
  else if i = 1 then some { taskStatus := "PENDING", results := [] }
  else some { taskStatus := "SUCCEEDED", results := ["http://img"] }

/-- Aliyun poll responses that are PENDING forever. -/
def envAllPending : Nat → Option AliyunStatus :=
  fun _ => some { taskStatus := "PENDING", results := [] }

/-- Aliyun poll responses: SUCCEEDED with an empty result list, then
SUCCEEDED with a URL. -/
def envEmptyThenFull : Nat → Option AliyunStatus := fun i =>
  if i = 0 then some { taskStatus := "SUCCEEDED", results := [] }
  else some { taskStatus := "SUCCEEDED", results := ["http://img"] }

/-- Aliyun poll responses that are SUCCEEDED with an empty list forever. -/
def envAllEmpty : Nat → Option AliyunStatus :=
  fun _ => some { taskStatus := "SUCCEEDED", results := [] }

/-- ModelScope poll responses PENDING, PENDING, then SUCCEED with a URL. -/
def envMsPPS : Nat → Option ModelScopeStatus := fun i =>
  if i = 0 then some { taskStatus := "PENDING", outputImages := [] }
  else if i = 1 then some { taskStatus := "PENDING", outputImages := [] }
  else some { taskStatus := "SUCCEED", outputImages := ["http://img"] }

/-- ModelScope poll responses that are PENDING forever. -/
def envMsAllPending : Nat → Option ModelScopeStatus :=
  fun _ => some { taskStatus := "PENDING", outputImages := [] }

/-- ModelScope poll responses that are SUCCEED-with-no-images forever. -/
def envMsAllEmpty : Nat → Option ModelScopeStatus :=
  fun _ => some { taskStatus := "SUCCEED", outputImages := [] }

/-- A registered generator fixture. -/
def gen0 : PlatformGenerator :=
  { name := "硅基流动", apiKey := "sk-1", model := "Kwai-Kolors/Kolors"
    baseURL := "https://api.siliconflow.cn/v1" }

/-- A publish adapter whose remote call fails. -/
def pubA : PubPlatform :=
  { name := "A", ptype := "a", publishFn := fun _ _ _ => .error "boom" }

/-- A publish adapter whose remote call succeeds. -/
def pubB : PubPlatform :=
  { name := "B", ptype := "b", publishFn := fun _ _ _ => .ok "http://dest" }

/-- A publish manager with the two adapters above registered. -/
def pubM : List PubPlatform := [pubA, pubB]

/-- An image row that has not been approved. -/
def pendingRow : ImageRow :=
  { id := 1, path := "/data/out/2026-02-20/siliconflow/215654.png", status := "pending" }

/-- A process environment resolving every credential variable to `sk-9`. -/
def env9 : String → String := fun _ => "sk-9"

/-- The `openai` platform entry with its enabled flag cleared. -/
def openaiDisabled : PlatformConfig := { openaiCfg with enabled := false }

/-! ## Helper lemmas about the poll loop -/

theorem pollLoop_step_none {α : Type} (step : α → Option PollOutcome) (env : Nat → α)
    (i fuel : Nat) (h : step (env i) = none) :
    pollLoop step env i (fuel + 1) = pollLoop step env (i + 1) fuel := by
  simp [pollLoop, h]

theorem pollLoop_step_some {α : Type} (step : α → Option PollOutcome) (env : Nat → α)
    (i fuel : Nat) (out : PollOutcome) (h : step (env i) = some out) :
    pollLoop step env i (fuel + 1) = (out, i + 1) := by
  simp [pollLoop, h]

theorem pollLoop_all_continue {α : Type} (step : α → Option PollOutcome) (env : Nat → α) :
    ∀ (fuel i : Nat), (∀ j, i ≤ j → j < i + fuel → step (env j) = none) →
      pollLoop step env i fuel = (.timedOut, i + fuel)
  | 0, i, _ => by simp [pollLoop]
  | fuel + 1, i, h => by
      rw [pollLoop_step_none step env i fuel (h i (Nat.le_refl i) (by omega))]
      rw [pollLoop_all_continue step env fuel (i + 1)
        (fun j h1 h2 => h j (by omega) (by omega))]
      exact congrArg (Prod.mk _) (by omega)

theorem aliyunStep_nonterminal (a : Option AliyunStatus)
    (h : ∀ st, a = some st → st.taskStatus ≠ "SUCCEEDED" ∧ st.taskStatus ≠ "FAILED") :
    aliyunStep a = none := by
  match a with
  | none => rfl
  | some st =>
      have h' := h st rfl
      simp only [aliyunStep]
      rw [dif_neg (fun hc => h'.1 hc.1)]
      rw [if_neg h'.2]

theorem aliyunStep_success (url : String) (rest : List String) :
    aliyunStep (some { taskStatus := "SUCCEEDED", results := url :: rest }) =
      some (.success url) := by
  simp [aliyunStep]

theorem modelScopeStep_nonterminal (a : Option ModelScopeStatus)
    (h : ∀ st, a = some st → st.taskStatus ≠ "SUCCEED" ∧ st.taskStatus ≠ "FAILED") :
    modelScopeStep a = none := by
  match a with
  | none => rfl
  | some st =>
      have h' := h st rfl
      simp only [modelScopeStep]
      rw [dif_neg (fun hc => h'.1 hc.1)]
      rw [if_neg h'.2]

theorem modelScopeStep_success (url : String) (rest : List String) :
    modelScopeStep (some { taskStatus := "SUCCEED", outputImages := url :: rest }) =
      some (.success url) := by
  simp [modelScopeStep]

/-! ## Claim theorems -/

/-- C1 counterexample: a successful invocation of the enabled provider with
key `openai` persists its artifact under the `siliconflow` directory, not
under `openai`, so the path scheme `{outputRoot}/{date}/{providerKey}/...`
with `providerKey` the invoked provider's key fails. -/
theorem C1_counterexample :
    (generateImage ps0 "openai" adapter0 "/data/out" t0 (.ok [7])).map
        GenerateResult.filePath = some "/data/out/2026-02-20/siliconflow/215654.png" ∧
    (generateImage ps0 "openai" adapter0 "/data/out" t0 (.ok [7])).map
        GenerateResult.filePath ≠ some "/data/out/2026-02-20/openai/215654.png" := by
  refine ⟨rfl, ?_⟩
  decide

/-- C1 (amended): a successful invocation persists its artifact at exactly
`{outputRoot}/{YYYY-MM-DD}/{label}/{HHMMSS}.png`, where `label` is the
adapter's hardcoded directory name: `aliyun` for key `aliyun`, `modelscope`
for key `modelscope`, and the literal `siliconflow` for every other key
(all of which are served by the synchronous adapter); so the label equals the
provider key only for those three keys, and the spec's `siliconflow` example
is bit-exact. -/
theorem C1_artifact_path_scheme (ps : List (String × PlatformConfig)) (key : String)
    (p : PlatformConfig) (adapter : String → PlatformConfig → Option String)
    (root url : String) (t : GoTime) (data : List Nat)
    (hlook : lookupPlatform ps key = some p) (hen : p.enabled = true)
    (had : adapter key p = some url) :
    generateImage ps key adapter root t (.ok data) =
      some { platform := p.name, model := p.model
             filename := formatHMS t ++ ".png"
             filePath := artifactPath root (dispatchLabel key) t
             success := true } ∧
    dispatchLabel "aliyun" = "aliyun" ∧
    dispatchLabel "modelscope" = "modelscope" ∧
    (key ≠ "aliyun" → key ≠ "modelscope" → dispatchLabel key = "siliconflow") ∧
    artifactPath "/data/out" "siliconflow" t0 = "/data/out/2026-02-20/siliconflow/215654.png" := by
  refine ⟨?_, rfl, rfl, ?_, by rfl⟩
  · simp [generateImage, hlook, hen, had, downloadAndSave]
  · intro h1 h2
    unfold dispatchLabel
    rw [if_neg h1, if_neg h2]

/-- C1 witness: the amended statement instantiated at the enabled `openai`
registry, the always-succeeding adapter and the spec's example instant. -/
theorem C1_artifact_path_scheme_witness :
    generateImage ps0 "openai" adapter0 "/data/out" t0 (.ok [7]) =
      some { platform := openaiCfg.name, model := openaiCfg.model
             filename := formatHMS t0 ++ ".png"
             filePath := artifactPath "/data/out" (dispatchLabel "openai") t0
             success := true } ∧
    dispatchLabel "aliyun" = "aliyun" ∧
    dispatchLabel "modelscope" = "modelscope" ∧
    ("openai" ≠ "aliyun" → "openai" ≠ "modelscope" → dispatchLabel "openai" = "siliconflow") ∧
    artifactPath "/data/out" "siliconflow" t0 = "/data/out/2026-02-20/siliconflow/215654.png" :=
  C1_artifact_path_scheme ps0 "openai" openaiCfg adapter0 "/data/out" "http://img" t0 [7]
    rfl rfl rfl

/-- C2: the Aliyun poller, fed PENDING, PENDING, then SUCCEEDED with a
non-empty result list, stops after exactly three polls and returns the first
URL; fed only non-terminal statuses it performs exactly 30 polls and times
out, never returning a success; the ModelScope poller behaves the same with
its `SUCCEED` vocabulary and its cap of 60. -/
theorem C2_async_poller :
    (∀ (env : Nat → Option AliyunStatus) (url : String) (rest : List String),
      env 0 = some { taskStatus := "PENDING", results := [] } →
      env 1 = some { taskStatus := "PENDING", results := [] } →
      env 2 = some { taskStatus := "SUCCEEDED", results := url :: rest } →
      aliyunPoll env = (.success url, 3)) ∧
    (∀ env : Nat → Option AliyunStatus,
      (∀ i, i < 30 → ∀ st, env i = some st →
        st.taskStatus ≠ "SUCCEEDED" ∧ st.taskStatus ≠ "FAILED") →
      aliyunPoll env = (.timedOut, 30)) ∧
    (∀ (env : Nat → Option ModelScopeStatus) (url : String) (rest : List String),
      env 0 = some { taskStatus := "PENDING", outputImages := [] } →
      env 1 = some { taskStatus := "PENDING", outputImages := [] } →
      env 2 = some { taskStatus := "SUCCEED", outputImages := url :: rest } →
      modelScopePoll env = (.success url, 3)) ∧
    (∀ env : Nat → Option ModelScopeStatus,
      (∀ i, i < 60 → ∀ st, env i = some st →
        st.taskStatus ≠ "SUCCEED" ∧ st.taskStatus ≠ "FAILED") →
      modelScopePoll env = (.timedOut, 60)) := by
  refine ⟨?_, ?_, ?_, ?_⟩
  · intro env url rest h0 h1 h2
    have s0 : aliyunStep (env 0) = none := by
      rw [h0]; exact aliyunStep_nonterminal _ (by
        intro st hst
        injection hst with h
        rw [← h]
        exact ⟨by decide, by decide⟩)
    have s1 : aliyunStep (env 1) = none := by
      rw [h1]; exact aliyunStep_nonterminal _ (by
        intro st hst
        injection hst with h
        rw [← h]
        exact ⟨by decide, by decide⟩)
    have s2 : aliyunStep (env 2) = some (.success url) := by
      rw [h2]; exact aliyunStep_success url rest
    show pollLoop aliyunStep env 0 (29 + 1) = (.success url, 3)
    rw [pollLoop_step_none aliyunStep env 0 29 s0]
    show pollLoop aliyunStep env 1 (28 + 1) = (.success url, 3)
    rw [pollLoop_step_none aliyunStep env 1 28 s1]
    show pollLoop aliyunStep env 2 (27 + 1) = (.success url, 3)
    rw [pollLoop_step_some aliyunStep env 2 27 _ s2]
  · intro env h
    have hs : ∀ j, 0 ≤ j → j < 0 + 30 → aliyunStep (env j) = none := by
      intro j _ hj
      exact aliyunStep_nonterminal (env j) (fun st hst => h j (by omega) st hst)
    simpa [aliyunPoll] using pollLoop_all_continue aliyunStep env 30 0 hs
  · intro env url rest h0 h1 h2
    have s0 : modelScopeStep (env 0) = none := by
      rw [h0]; exact modelScopeStep_nonterminal _ (by
        intro st hst
        injection hst with h
        rw [← h]
        exact ⟨by decide, by decide⟩)
    have s1 : modelScopeStep (env 1) = none := by
      rw [h1]; exact modelScopeStep_nonterminal _ (by
        intro st hst
        injection hst with h
        rw [← h]
        exact ⟨by decide, by decide⟩)
    have s2 : modelScopeStep (env 2) = some (.success url) := by
      rw [h2]; exact modelScopeStep_success url rest
    show pollLoop modelScopeStep env 0 (59 + 1) = (.success url, 3)
    rw [pollLoop_step_none modelScopeStep env 0 59 s0]
    show pollLoop modelScopeStep env 1 (58 + 1) = (.success url, 3)
    rw [pollLoop_step_none modelScopeStep env 1 58 s1]
    show pollLoop modelScopeStep env 2 (57 + 1) = (.success url, 3)
    rw [pollLoop_step_some modelScopeStep env 2 57 _ s2]
  · intro env h
    have hs : ∀ j, 0 ≤ j → j < 0 + 60 → modelScopeStep (env j) = none := by
      intro j _ hj
      exact modelScopeStep_nonterminal (env j) (fun st hst => h j (by omega) st hst)
    simpa [modelScopePoll] using pollLoop_all_continue modelScopeStep env 60 0 hs

/-- C2 witness: the four poller scenarios evaluated on concrete response
sequences. -/
theorem C2_async_poller_witness :
    aliyunPoll envPPS = (.success "http://img", 3) ∧
    aliyunPoll envAllPending = (.timedOut, 30) ∧
    modelScopePoll envMsPPS = (.success "http://img", 3) ∧
    modelScopePoll envMsAllPending = (.timedOut, 60) :=
  ⟨C2_async_poller.1 envPPS "http://img" [] rfl rfl rfl,
   C2_async_poller.2.1 envAllPending (by
     intro i _ st hst
     injection hst with h
     rw [← h]
     exact ⟨by decide, by decide⟩),
   C2_async_poller.2.2.1 envMsPPS "http://img" [] rfl rfl rfl,
   C2_async_poller.2.2.2 envMsAllPending (by
     intro i _ st hst
     injection hst with h
     rw [← h]
     exact ⟨by decide, by decide⟩)⟩

/-- C3 counterexample: with the first poll SUCCEEDED-but-empty and the second
SUCCEEDED with a URL, the Aliyun loop treats the empty attempt as a
continuation and returns a success on the second poll — so a SUCCEEDED
attempt with no URL is not itself a failure. -/
theorem C3_counterexample :
    envEmptyThenFull 0 = some { taskStatus := "SUCCEEDED", results := [] } ∧
    aliyunPoll envEmptyThenFull = (.success "http://img", 2) := by
  refine ⟨rfl, ?_⟩
  decide

/-- C3 (amended): a poll attempt classified SUCCEEDED whose result list is
empty yields neither a success nor a failure on that attempt — the loop keeps
polling — and when every attempt up to the cap is such, the poll ends as a
timed-out failure; likewise for ModelScope's SUCCEED vocabulary. -/
theorem C3_succeeded_empty_continues :
    (∀ st : AliyunStatus, st.taskStatus = "SUCCEEDED" → st.results = [] →
      aliyunStep (some st) = none) ∧
    (∀ env : Nat → Option AliyunStatus,
      (∀ i, i < 30 → env i = some { taskStatus := "SUCCEEDED", results := [] }) →
      aliyunPoll env = (.timedOut, 30)) ∧
    (∀ st : ModelScopeStatus, st.taskStatus = "SUCCEED" → st.outputImages = [] →
      modelScopeStep (some st) = none) ∧
    (∀ env : Nat → Option ModelScopeStatus,
      (∀ i, i < 60 → env i = some { taskStatus := "SUCCEED", outputImages := [] }) →
      modelScopePoll env = (.timedOut, 60)) := by
  refine ⟨?_, ?_, ?_, ?_⟩
  · intro st h1 h2
    simp only [aliyunStep]
    rw [dif_neg (fun hc => hc.2 h2)]
    rw [if_neg (by rw [h1]; decide)]
  · intro env h
    have hs : ∀ j, 0 ≤ j → j < 0 + 30 → aliyunStep (env j) = none := by
      intro j _ hj
      rw [h j (by omega)]
      decide
    simpa [aliyunPoll] using pollLoop_all_continue aliyunStep env 30 0 hs
  · intro st h1 h2
    simp only [modelScopeStep]
    rw [dif_neg (fun hc => hc.2 h2)]
    rw [if_neg (by rw [h1]; decide)]
  · intro env h
    have hs : ∀ j, 0 ≤ j → j < 0 + 60 → modelScopeStep (env j) = none := by
      intro j _ hj
      rw [h j (by omega)]
      decide
    simpa [modelScopePoll] using pollLoop_all_continue modelScopeStep env 60 0 hs

/-- C3 witness: the amended statement evaluated on the concrete
all-SUCCEEDED-but-empty response sequences. -/
theorem C3_succeeded_empty_continues_witness :
    aliyunStep (some { taskStatus := "SUCCEEDED", results := [] }) = none ∧
    aliyunPoll envAllEmpty = (.timedOut, 30) ∧
    modelScopeStep (some { taskStatus := "SUCCEED", outputImages := [] }) = none ∧
    modelScopePoll envMsAllEmpty = (.timedOut, 60) :=
  ⟨C3_succeeded_empty_continues.1 _ rfl rfl,
   C3_succeeded_empty_continues.2.1 envAllEmpty (fun _ _ => rfl),
   C3_succeeded_empty_continues.2.2.1 _ rfl rfl,
   C3_succeeded_empty_continues.2.2.2 envMsAllEmpty (fun _ _ => rfl)⟩

/-- C4 counterexample: a fetch that returns an empty body is not reported as
an error — `downloadAndSave` writes an empty file at the target path and
returns a success result. -/
theorem C4_counterexample :
    (downloadAndSave openaiCfg "siliconflow" "/data/out" t0 (.ok [])).written =
      some ("/data/out/2026-02-20/siliconflow/215654.png", []) ∧
    (downloadAndSave openaiCfg "siliconflow" "/data/out" t0 (.ok [])).outcome.map
      GenerateResult.success = some true := by
  exact ⟨rfl, rfl⟩

/-- C4 (amended): a fetch failure is reported as an error and writes no file;
a successful fetch — including one with an empty body — writes exactly the
fully buffered payload to the target path (never a partial write) and
returns a success result. -/
theorem C4_persist_behavior (p : PlatformConfig) (plat root : String) (t : GoTime) :
    downloadAndSave p plat root t .err = { written := none, outcome := none } ∧
    ∀ data : List Nat,
      downloadAndSave p plat root t (.ok data) =
        { written := some (artifactPath root plat t, data)
          outcome := some
            { platform := p.name, model := p.model
              filename := formatHMS t ++ ".png"
              filePath := artifactPath root plat t
              success := true } } :=
  ⟨rfl, fun _ => rfl⟩

/-- C5 counterexample: with no environment credential set, a yaml entry with
`enabled: true` and an empty `apiKey` stays enabled after configuration load
— so enabled does not imply a non-empty credential — and `generateImage`
still proceeds to a remote invocation for it. -/
theorem C5_counterexample :
    (resolvePlatform emptyEnv siliconflowNoKey).enabled = true ∧
    (resolvePlatform emptyEnv siliconflowNoKey).apiKey = "" ∧
    generateImage (loadConfigPlatforms emptyEnv [("siliconflow", siliconflowNoKey)])
      "siliconflow" adapter0 "/data/out" t0 (.ok [7]) ≠ none := by
  refine ⟨rfl, rfl, ?_⟩
  decide

/-- C5 (amended): after configuration load, a platform whose credential
environment variable resolves non-empty is enabled with that credential; a
platform whose variable is empty keeps its configured values unchanged, so
its enabled flag need not match credential presence. `getEnabledPlatforms`
filters on both the flag and a non-empty credential, but `generateImage`
declines only a missing or flag-disabled platform and invokes an enabled one
regardless of its credential. -/
theorem C5_enabled_credential :
    (∀ (env : String → String) (p : PlatformConfig), env p.envKey ≠ "" →
      (resolvePlatform env p).enabled = true ∧
      (resolvePlatform env p).apiKey = env p.envKey) ∧
    (∀ (env : String → String) (p : PlatformConfig), env p.envKey = "" →
      resolvePlatform env p = p) ∧
    (∀ (ps : List (String × PlatformConfig)) (kp : String × PlatformConfig),
      kp ∈ getEnabledPlatforms ps ↔ kp ∈ ps ∧ kp.2.enabled = true ∧ kp.2.apiKey ≠ "") ∧
    (∀ (ps : List (String × PlatformConfig)) (key : String)
        (adapter : String → PlatformConfig → Option String) (root : String)
        (t : GoTime) (fetch : FetchResult) (p : PlatformConfig),
      lookupPlatform ps key = some p → p.enabled = false →
      generateImage ps key adapter root t fetch = none) ∧
    (∀ (ps : List (String × PlatformConfig)) (key : String)
        (adapter : String → PlatformConfig → Option String) (root : String)
        (t : GoTime) (data : List Nat) (p : PlatformConfig) (url : String),
      lookupPlatform ps key = some p → p.enabled = true → adapter key p = some url →
      generateImage ps key adapter root t (.ok data) ≠ none) := by
  refine ⟨?_, ?_, ?_, ?_, ?_⟩
  · intro env p h
    unfold resolvePlatform
    rw [if_pos h]
    exact ⟨rfl, rfl⟩
  · intro env p h
    unfold resolvePlatform
    rw [if_neg (fun hc => hc h)]
  · intro ps kp
    simp [getEnabledPlatforms, List.mem_filter, and_assoc]
  · intro ps key adapter root t fetch p hlook hen
    simp [generateImage, hlook, hen]
  · intro ps key adapter root t data p url hlook hen had
    simp [generateImage, hlook, hen, had, downloadAndSave]

/-- C5 witness: the amended statement evaluated at a resolving environment,
an empty environment, a one-entry registry and the always-succeeding
adapter. -/
theorem C5_enabled_credential_witness :
    ((resolvePlatform env9 siliconflowNoKey).enabled = true ∧
      (resolvePlatform env9 siliconflowNoKey).apiKey = env9 siliconflowNoKey.envKey) ∧
    resolvePlatform emptyEnv siliconflowNoKey = siliconflowNoKey ∧
    (("openai", openaiCfg) ∈ getEnabledPlatforms ps0 ↔
      ("openai", openaiCfg) ∈ ps0 ∧ openaiCfg.enabled = true ∧ openaiCfg.apiKey ≠ "") ∧
    generateImage [("openai", openaiDisabled)] "openai" adapter0 "/data/out" t0 (.ok [7]) =
      none ∧
    generateImage ps0 "openai" adapter0 "/data/out" t0 (.ok [7]) ≠ none :=
  ⟨C5_enabled_credential.1 env9 siliconflowNoKey (by decide),
   C5_enabled_credential.2.1 emptyEnv siliconflowNoKey rfl,
   C5_enabled_credential.2.2.1 ps0 ("openai", openaiCfg),
   C5_enabled_credential.2.2.2.1 [("openai", openaiDisabled)] "openai" adapter0 "/data/out"
     t0 (.ok [7]) openaiDisabled rfl rfl,
   C5_enabled_credential.2.2.2.2 ps0 "openai" adapter0 "/data/out" t0 [7] openaiCfg
     "http://img" rfl rfl rfl⟩

/-- C6 counterexample: for a missing key and for a disabled key, the server's
single-target call `generateImage` returns nil — an empty result carrying no
error information — rather than a `NotFoundOrDisabledProvider`-class error
outcome. -/
theorem C6_counterexample :
    generateImage [] "siliconflow" adapter0 "/data/out" t0 (.ok [7]) = none ∧
    generateImage [("openai", openaiDisabled)] "openai" adapter0 "/data/out" t0 (.ok [7]) =
      none := by
  exact ⟨rfl, rfl⟩

/-- C6 (amended): the server's `generateImage` answers a missing or disabled
key with nil — a silent empty result — which `handleGenerate` converts into a
generic 500 error response; the generator package's `GenerateSingle` instead
returns an explicit failure outcome with error `平台未启用` for a missing key,
and a success-capable outcome (succeeding whenever the remote call and the
download succeed) for a registered key. -/
theorem C6_single_target :
    (∀ (ps : List (String × PlatformConfig)) (key : String)
        (adapter : String → PlatformConfig → Option String) (root : String)
        (t : GoTime) (fetch : FetchResult),
      lookupPlatform ps key = none →
      generateImage ps key adapter root t fetch = none ∧
      handleGenerate (generateImage ps key adapter root t fetch) =
        .errorResp 500 "生成失败，请检查平台是否正确或API是否配置") ∧
    (∀ (ps : List (String × PlatformConfig)) (key : String)
        (adapter : String → PlatformConfig → Option String) (root : String)
        (t : GoTime) (fetch : FetchResult) (p : PlatformConfig),
      lookupPlatform ps key = some p → p.enabled = false →
      generateImage ps key adapter root t fetch = none ∧
      handleGenerate (generateImage ps key adapter root t fetch) =
        .errorResp 500 "生成失败，请检查平台是否正确或API是否配置") ∧
    (∀ (gens : List (String × PlatformGenerator)) (key : String)
        (genRes : PlatformGenerator → Except String String)
        (download : String → Except String Unit) (outputDir : String) (unix : Nat),
      gens.find? (fun kg => kg.1 = key) = none →
      (GenerateSingle gens key genRes download outputDir unix).success = false ∧
      (GenerateSingle gens key genRes download outputDir unix).error = "平台未启用") ∧
    (∀ (gens : List (String × PlatformGenerator)) (key : String)
        (g : PlatformGenerator) (outputDir url : String) (unix : Nat),
      (gens.find? (fun kg => kg.1 = key)).map (fun kg => kg.2) = some g →
      (GenerateSingle gens key (fun _ => .ok url) (fun _ => .ok ()) outputDir unix).success =
        true) := by
  refine ⟨?_, ?_, ?_, ?_⟩
  · intro ps key adapter root t fetch hlook
    have h : generateImage ps key adapter root t fetch = none := by
      simp [generateImage, hlook]
    exact ⟨h, by rw [h]; rfl⟩
  · intro ps key adapter root t fetch p hlook hen
    have h : generateImage ps key adapter root t fetch = none := by
      simp [generateImage, hlook, hen]
    exact ⟨h, by rw [h]; rfl⟩
  · intro gens key genRes download outputDir unix hfind
    unfold GenerateSingle
    rw [hfind]
    exact ⟨rfl, rfl⟩
  · intro gens key g outputDir url unix hfind
    unfold GenerateSingle
    rw [hfind]
    rfl

/-- C6 witness: the amended statement on concrete registries — an empty one,
a disabled entry, a missing generator key and a registered generator. -/
theorem C6_single_target_witness :
    (generateImage [] "siliconflow" adapter0 "/data/out" t0 (.ok [7]) = none ∧
      handleGenerate (generateImage [] "siliconflow" adapter0 "/data/out" t0 (.ok [7])) =
        .errorResp 500 "生成失败，请检查平台是否正确或API是否配置") ∧
    ((GenerateSingle [] "siliconflow" (fun _ => .ok "http://img") (fun _ => .ok ())
        "/data/out" 1 ).success = false ∧
      (GenerateSingle [] "siliconflow" (fun _ => .ok "http://img") (fun _ => .ok ())
        "/data/out" 1 ).error = "平台未启用") ∧
    (GenerateSingle [("siliconflow", gen0)] "siliconflow" (fun _ => .ok "http://img")
        (fun _ => .ok ()) "/data/out" 1 ).success = true :=
  ⟨C6_single_target.1 [] "siliconflow" adapter0 "/data/out" t0 (.ok [7]) rfl,
   C6_single_target.2.2.1 [] "siliconflow" (fun _ => .ok "http://img") (fun _ => .ok ())
     "/data/out" 1 rfl,
   C6_single_target.2.2.2 [("siliconflow", gen0)] "siliconflow" gen0 "/data/out"
     "http://img" 1 rfl⟩

/-- C7: the publish dispatch returns exactly one rendered outcome per
requested platform key (an empty request list expanding to all registered
platforms), each entry computed solely from that key's own adapter lookup —
so one adapter's failure can neither remove nor alter another key's entry. -/
theorem C7_publish_dispatch :
    (∀ (m : List PubPlatform) (keys : List String) (img title content : String),
      (dispatchMany m keys img title content).map Prod.fst = expandKeys m keys) ∧
    (∀ (m : List PubPlatform) (keys : List String), keys ≠ [] → expandKeys m keys = keys) ∧
    (∀ m : List PubPlatform, expandKeys m [] = m.map (fun p => p.ptype)) ∧
    (∀ (m : List PubPlatform) (keys : List String) (img title content k : String),
      k ∈ expandKeys m keys →
      (k, publishEntry m k img title content) ∈ dispatchMany m keys img title content) ∧
    (∀ (m m₂ : List PubPlatform) (k img title content : String),
      managerLookup m k = managerLookup m₂ k →
      publishEntry m k img title content = publishEntry m₂ k img title content) := by
  refine ⟨?_, ?_, ?_, ?_, ?_⟩
  · intro m keys img title content
    simp only [dispatchMany, List.map_map]
    exact List.map_id _
  · intro m keys h
    simp [expandKeys, h]
  · intro m
    rfl
  · intro m keys img title content k hk
    exact List.mem_map_of_mem _ hk
  · intro m m₂ k img title content h
    unfold publishEntry managerPublish
    rw [h]

/-- C7 witness: dispatch over the concrete manager holding a failing adapter
`a` and a succeeding adapter `b`. -/
theorem C7_publish_dispatch_witness :
    (dispatchMany pubM ["a", "b"] "/img" "t" "c").map Prod.fst =
      expandKeys pubM ["a", "b"] ∧
    expandKeys pubM ["a", "b"] = ["a", "b"] ∧
    ("a", publishEntry pubM "a" "/img" "t" "c") ∈
      dispatchMany pubM ["a", "b"] "/img" "t" "c" :=
  ⟨C7_publish_dispatch.1 pubM ["a", "b"] "/img" "t" "c",
   C7_publish_dispatch.2.1 pubM ["a", "b"] (by decide),
   C7_publish_dispatch.2.2.2.1 pubM ["a", "b"] "/img" "t" "c" "a" (by decide)⟩

/-- C8: fan-out generation returns exactly one outcome per registered
generator — position i of the returned list is exactly the attempt for the
registry's i-th provider — for every remote-result and download environment,
so however many providers fail the count is preserved. -/
theorem C8_fanout_outcomes (gens : List (String × PlatformGenerator))
    (genRes : PlatformGenerator → Except String String)
    (download : String → Except String Unit) (outputDir : String) (unix : Nat) :
    (GenerateAll gens genRes download outputDir unix).length = gens.length ∧
    ∀ i : Nat,
      (GenerateAll gens genRes download outputDir unix)[i]? =
        gens[i]?.map (fun kg => generatorAttempt kg.1 kg.2 genRes download outputDir unix) := by
  constructor
  · simp [GenerateAll]
  · intro i
    simp [GenerateAll]

/-- C9 counterexample: `generateViaHTTP`, a synchronous-adapter invocation,
sends the raw `1024x2048` token although the requested height 2048 exceeds
the width 1024 — no narrower alternate width is derived there. -/
theorem C9_counterexample :
    (1024 : Int) < 2048 ∧ generateViaHTTPSize 1024 2048 = "1024x2048" := by
  exact ⟨by decide, rfl⟩

/-- C9 (amended): the server's synchronous adapter `generateSyncImage` sends
a concrete `WIDTHxHEIGHT` token, halving the width (a strictly narrower
value) whenever the configured height exceeds the width; the generator
package's `generateViaHTTP` always sends the raw token without that
adjustment. -/
theorem C9_size_token (width height : Int) (hw : 0 < width) (hlt : width < height) :
    syncImageSize width height = toString (Int.tdiv width 2) ++ "x" ++ toString height ∧
    Int.tdiv width 2 < width ∧
    generateViaHTTPSize width height = toString width ++ "x" ++ toString height := by
  refine ⟨?_, ?_, rfl⟩
  · unfold syncImageSize
    rw [if_pos hlt]
  · obtain ⟨n, rfl⟩ := Int.eq_ofNat_of_zero_le (le_of_lt hw)
    have hn : 0 < n := by exact_mod_cast hw
    have h2 : Int.tdiv (n : Int) 2 = ((n / 2 : Nat) : Int) := rfl
    rw [h2]
    exact_mod_cast Nat.div_lt_self hn (by norm_num)

/-- C9 witness: the amended statement at the default configured dimensions
1024 by 2048. -/
theorem C9_size_token_witness :
    syncImageSize 1024 2048 = toString (Int.tdiv 1024 2) ++ "x" ++ toString (2048 : Int) ∧
    Int.tdiv 1024 2 < (1024 : Int) ∧
    generateViaHTTPSize 1024 2048 = toString (1024 : Int) ++ "x" ++ toString (2048 : Int) :=
  C9_size_token 1024 2048 (by decide) (by decide)

/-- C10: `handlePublish` rejects a missing record with 404 and a record whose
status is not `approved` with 400, invoking no platform adapter in either
case; the dispatch over the requested platforms runs only for an `approved`
record. -/
theorem C10_publish_requires_approved :
    (∀ (r : ImageRow) (m : List PubPlatform) (keys : List String) (title content : String),
      r.status ≠ "approved" →
      handlePublish (some r) m keys title content = (.badRequest "只能发布审核通过的图片", [])) ∧
    (∀ (m : List PubPlatform) (keys : List String) (title content : String),
      handlePublish none m keys title content = (.notFound "图片不存在", [])) ∧
    (∀ (r : ImageRow) (m : List PubPlatform) (keys : List String) (title content : String),
      r.status = "approved" →
      handlePublish (some r) m keys title content =
        (.ok (dispatchMany m keys r.path title content), expandKeys m keys)) := by
  refine ⟨?_, ?_, ?_⟩
  · intro r m keys title content h
    simp only [handlePublish]
    rw [if_pos h]
  · intro m keys title content
    rfl
  · intro r m keys title content h
    simp only [handlePublish]
    rw [if_neg (fun hc => hc h)]

/-- C10 witness: a pending record is rejected with no adapter invoked; a
missing record yields the 404 response. -/
theorem C10_publish_requires_approved_witness :
    handlePublish (some pendingRow) pubM ["a"] "t" "c" =
      (.badRequest "只能发布审核通过的图片", []) ∧
    handlePublish none pubM ["a"] "t" "c" = (.notFound "图片不存在", []) ∧
    handlePublish (some { pendingRow with status := "approved" }) pubM ["a"] "t" "c" =
      (.ok (dispatchMany pubM ["a"] pendingRow.path "t" "c"), expandKeys pubM ["a"]) :=
  ⟨C10_publish_requires_approved.1 pendingRow pubM ["a"] "t" "c" (by decide),
   C10_publish_requires_approved.2.1 pubM ["a"] "t" "c",
   C10_publish_requires_approved.2.2 { pendingRow with status := "approved" } pubM ["a"]
     "t" "c" rfl⟩
